import Mathlib

/-!
Verification of the argument-serialization layer, the Eval command builder,
Connection::send and the sentinel master-discovery algorithm of a Redis
client driver, shallowly embedded from the Rust source.
-/

namespace RedisDriver

/-- Digit-extraction loop for `natDigits`, driven by fuel (the value
`n` itself bounds the number of digits, so the fuel never runs out
for the initial call). -/
def natDigitsAux (fuel n : Nat) : List Nat :=
  match fuel with
  | 0 => []
  | fuel + 1 =>
    if n < 10 then [48 + n]
    else natDigitsAux fuel (n / 10) ++ [48 + n % 10]

/-- Decimal digit rendering of a natural number, most significant digit
first, as ASCII byte codes; mirrors the itoa formatting used by
write_integer in src/resp/to_args.rs (no superfluous leading zeros). -/
def natDigits (n : Nat) : List Nat :=
  natDigitsAux (n + 1) n

/-- itoa formatting of a signed integer: a leading minus sign (ASCII 45)
for negative values, then the decimal digits; mirrors write_integer in
src/resp/to_args.rs. -/
def intToDec (i : Int) : List Nat :=
  if i < 0 then 45 :: natDigits i.natAbs else natDigits i.toNat

/-- UTF-8 encoding of a unicode scalar value, as in Rust's
char::encode_utf8. -/
def encodeUtf8 (n : Nat) : List Nat :=
  if n < 0x80 then [n]
  else if n < 0x800 then
    [0xC0 + n / 64, 0x80 + n % 64]
  else if n < 0x10000 then
    [0xE0 + n / 4096, 0x80 + n / 64 % 64, 0x80 + n % 64]
  else
    [0xF0 + n / 262144, 0x80 + n / 4096 % 64, 0x80 + n / 64 % 64, 0x80 + n % 64]

/-- The 4-byte buffer built by `impl ToArgs for char` in
src/resp/to_args.rs lines 171-178: a zero-initialized `[u8; 4]` whose
prefix is overwritten by `encode_utf8`; the WHOLE buffer is then passed
to write_arg. -/
def charBuf (c : Nat) : List Nat :=
  encodeUtf8 c ++ (List.replicate 4 0).drop (encodeUtf8 c).length

/-- Closed universe of `ToArgs` value types of src/resp/to_args.rs:
integers of all widths (`int`), booleans, byte buffers / strings /
BulkString (`str`), char, `Option<T>`, homogeneous collections
(`Vec<T>` / arrays / slices / sets, `vec`), 2- and 3-tuples, ordered
key-value maps (`kvmap`), and `CommandArgs` itself used as a ToArgs
value (`cmdArgs`, an ordered list of raw arguments). -/
inductive Val where
  | int (i : Int)
  | boolean (b : Bool)
  | str (s : List Nat)
  | chr (c : Nat)
  | opt (o : Option Val)
  | vec (l : List Val)
  | pair (a b : Val)
  | triple (a b c : Val)
  | kvmap (l : List (Val × Val))
  | cmdArgs (raw : List (List Nat))

mutual

/-- `ToArgs::num_args` for every impl in src/resp/to_args.rs. Scalar
impls (integers, floats, bool, strings, byte buffers, char) do not
override the trait default and report 1; Option, collections, maps and
tuples override it; the `impl ToArgs for CommandArgs` (lines 365-371)
does NOT override `num_args`, so it reports the trait default 1
whatever the length of the wrapped argument list. -/
def numArgs : Val → Nat
  | .int _ => 1
  | .boolean _ => 1
  | .str _ => 1
  | .chr _ => 1
  | .opt o => numArgsOpt o
  | .vec l => numArgsList l
  | .pair a b => numArgs a + numArgs b
  | .triple a b c => numArgs a + numArgs b + numArgs c
  | .kvmap l => numArgsKV l
  | .cmdArgs _ => 1

/-- `num_args` of `impl ToArgs for Option<T>`: None reports 0, Some
delegates to the inner value. -/
def numArgsOpt : Option Val → Nat
  | none => 0
  | some v => numArgs v

/-- `num_args` of the collection impls: fold of the elements' own
counts. -/
def numArgsList : List Val → Nat
  | [] => 0
  | v :: vs => numArgs v + numArgsList vs

/-- `num_args` of the map impls: fold of key count plus value count per
entry. -/
def numArgsKV : List (Val × Val) → Nat
  | [] => 0
  | (k, v) :: kvs => numArgs k + numArgs v + numArgsKV kvs

end

mutual

/-- `ToArgs::write_args` for every impl in src/resp/to_args.rs, with the
CommandArgs accumulator modelled as a list of raw arguments (each a
byte list) to which `write_arg` appends. -/
def writeArgs : Val → List (List Nat) → List (List Nat)
  | .int i, args => args ++ [intToDec i]
  | .boolean b, args => args ++ [if b then [49] else [48]]
  | .str s, args => args ++ [s]
  | .chr c, args => args ++ [charBuf c]
  | .opt o, args => writeArgsOpt o args
  | .vec l, args => writeArgsList l args
  | .pair a b, args => writeArgs b (writeArgs a args)
  | .triple a b c, args => writeArgs c (writeArgs b (writeArgs a args))
  | .kvmap l, args => writeArgsKV l args
  | .cmdArgs raw, args => args ++ raw

/-- `write_args` of `impl ToArgs for Option<T>`: None writes nothing,
Some delegates to the inner value. -/
def writeArgsOpt : Option Val → List (List Nat) → List (List Nat)
  | none, args => args
  | some v, args => writeArgs v args

/-- `write_args` of the collection impls: each element appended in
iteration order. -/
def writeArgsList : List Val → List (List Nat) → List (List Nat)
  | [], args => args
  | v :: vs, args => writeArgsList vs (writeArgs v args)

/-- `write_args` of the map impls: key then value per entry. -/
def writeArgsKV : List (Val × Val) → List (List Nat) → List (List Nat)
  | [], args => args
  | (k, v) :: kvs, args => writeArgsKV kvs (writeArgs v (writeArgs k args))

end

/-- A Val is a scalar (single-token) value: one of the types whose
impl writes exactly one raw argument unconditionally. -/
def scalar : Val → Bool
  | .int _ => true
  | .boolean _ => true
  | .str _ => true
  | .chr _ => true
  | _ => false

/-! ## Eval builder (src/commands/scripting_commands.rs) -/

/-- State of the `Eval` builder: the command's argument list so far
(the verb "EVAL"/"EVALSHA" is held separately by `Command` and omitted
here) and the `keys_added` flag. `eval(script)` starts with
`cmd("EVAL").arg(script)` and `keys_added: false`. -/
structure EvalCmd where
  args : List (List Nat)
  keysAdded : Bool
  deriving DecidableEq, Repr

/-- Initial builder state produced by `ScriptingCommands::eval` /
`evalsha`: the script (or sha1) is the sole argument and no keys have
been added. -/
def evalInit (script : List Nat) : EvalCmd := ⟨[script], false⟩

/-- A builder call on `Eval` between construction and `execute`:
`keys(ks)` or `args(vs)`; the collection arguments are modelled as the
lists of single raw arguments they serialize to. -/
inductive EvalOp where
  | keys (ks : List (List Nat))
  | args (vs : List (List Nat))
  deriving DecidableEq, Repr

/-- One builder call, from src/commands/scripting_commands.rs lines
76-106. `keys(ks)` appends `keys.num_args()` (the key count, rendered
in decimal) then the keys, and sets `keys_added`; `args(vs)` appends
`0` then the arguments when `keys_added` is still false, otherwise
just the arguments, and sets `keys_added` as well. -/
def evalStep (c : EvalCmd) : EvalOp → EvalCmd
  | .keys ks => ⟨c.args ++ natDigits ks.length :: ks, true⟩
  | .args vs =>
    if c.keysAdded then ⟨c.args ++ vs, true⟩
    else ⟨c.args ++ natDigits 0 :: vs, true⟩

/-- A full builder run ending in `execute`: the sequence of builder
calls applied to the initial state; `execute` sends the accumulated
command unchanged. -/
def evalRun (script : List Nat) (ops : List EvalOp) : EvalCmd :=
  ops.foldl evalStep (evalInit script)

/-- Whether a builder call is an `args(...)` call. -/
def isArgsOp : EvalOp → Bool
  | .args _ => true
  | .keys _ => false

/-- The raw arguments carried by a builder call. -/
def opPayload : EvalOp → List (List Nat)
  | .keys ks => ks
  | .args vs => vs

/-! ## Connection::send (src/network/connection.rs lines 251-258) -/

/-- Decoded reply `Value` variants; only the distinction between the
`Error` variant and the success variants matters to `send`. -/
inductive Value where
  | nil
  | int (i : Int)
  | bulk (s : List Nat)
  | simple (s : List Nat)
  | array (l : List Value)
  | error (msg : List Nat)

/-- The driver's error taxonomy (the variants `send` can produce or
forward). -/
inductive RErr where
  | client (msg : List Nat)
  | redis (msg : List Nat)
  | io (code : Nat)

/-- Modelled from the spec: `ResultValueExt::into_result` is not under
src/; §4.3 states "a decoded Error reply is translated into a typed
failure, never returned as data", so an `Ok(Value::Error(m))` becomes
the typed server-error failure and every other result is passed
through. -/
def intoResult : Except RErr Value → Except RErr Value
  | .ok (.error msg) => .error (.redis msg)
  | .ok v => .ok v
  | .error e => .error e

/-- The ASCII bytes of the string "Disconnected by peer". -/
def disconnectedMsg : List Nat :=
  [68, 105, 115, 99, 111, 110, 110, 101, 99, 116, 101, 100, 32,
   98, 121, 32, 112, 101, 101, 114]

/-- `Connection::send`: write the command, then read; `write` yields
`()` or an error, `read` yields `none` at end of stream or
`some result`. `None` from read becomes the ClientError
"Disconnected by peer"; a read result goes through `into_result`. -/
def send (w : Except RErr Unit) (r : Option (Except RErr Value)) :
    Except RErr Value :=
  match w with
  | .error e => .error e
  | .ok () =>
    match r with
    | none => .error (.client disconnectedMsg)
    | some res => intoResult res

/-! ## Sentinel discovery (src/network/connection.rs lines 137-249)

`connect_with_sentinel` interacts with the outside world only through
`Connection::initialize` on a sentinel, the
`sentinel_get_master_addr_by_name` query, `Connection::initialize` on
the returned master candidate, and the `role()` query on it; the
environment is therefore modelled as, per attempted endpoint, the
combined outcome of those interactions.  Rounds may differ (the world
changes between rounds), so a run environment is the list of
per-round outcome lists; the list doubles as fuel, since the Rust
loop is unbounded. -/

/-- Outcome of the master-candidate validation once a sentinel has
answered with a candidate address: connecting to the candidate fails,
the `role()` query fails, the role is Master, or the role is
something else. -/
inductive CandOutcome where
  | connFail (e : Nat)
  | roleErr (e : Nat)
  | master
  | notMaster
  deriving DecidableEq, Repr

/-- Per-endpoint outcome of one attempt: connecting to the sentinel
fails, the get-master-addr query fails, the sentinel answers
`None` ("service unknown"), or the sentinel answers with a candidate
whose validation has the given outcome. -/
inductive SentinelReply where
  | connectFail
  | queryErr
  | serviceUnknown
  | candidate (c : CandOutcome)
  deriving DecidableEq, Repr

/-- Observable events of a discovery run: a connection attempt to the
sentinel endpoint with the given index in the configured list, a
sentinel answering the query with a candidate, a sentinel answering
"service unknown", and the inter-failure sleep. -/
inductive Event where
  | contact (i : Nat)
  | answered (i : Nat)
  | unknown (i : Nat)
  | sleep
  deriving DecidableEq, Repr

/-- How the scan of one round's endpoint list ended: master found at
endpoint `i`, abort with a propagated error `e` (candidate connect or
role query failed), break with the restart flag set (role mismatch),
or list exhausted. -/
inductive ScanExit where
  | success (i : Nat)
  | abort (e : Nat)
  | restart
  | exhausted
  deriving DecidableEq, Repr

/-- Result of a round scan: the events it emitted, the updated
`unreachable_sentinel` flag, and how it ended. -/
structure ScanOut where
  trace : List Event
  unreachable : Bool
  exit : ScanExit
  deriving DecidableEq, Repr

/-- The inner `for sentinel_instance in &sentinel_config.instances`
loop: connection failure and query failure are logged and skipped; a
"service unknown" answer clears `unreachable_sentinel` and is
skipped; a candidate answer leads to validation — failure of the `?`
operators aborts, role Master succeeds, any other role sleeps and
breaks with the restart flag. `i` is the index of the first remaining
endpoint. -/
def roundScan (i : Nat) (u : Bool) : List SentinelReply → ScanOut
  | [] => ⟨[], u, .exhausted⟩
  | .connectFail :: rest =>
    let o := roundScan (i + 1) u rest
    ⟨.contact i :: o.trace, o.unreachable, o.exit⟩
  | .queryErr :: rest =>
    let o := roundScan (i + 1) u rest
    ⟨.contact i :: o.trace, o.unreachable, o.exit⟩
  | .serviceUnknown :: rest =>
    let o := roundScan (i + 1) false rest
    ⟨.contact i :: .unknown i :: o.trace, o.unreachable, o.exit⟩
  | .candidate (.connFail e) :: _ => ⟨[.contact i, .answered i], u, .abort e⟩
  | .candidate (.roleErr e) :: _ => ⟨[.contact i, .answered i], u, .abort e⟩
  | .candidate .master :: _ => ⟨[.contact i, .answered i], u, .success i⟩
  | .candidate .notMaster :: _ =>
    ⟨[.contact i, .answered i, .sleep], u, .restart⟩

/-- Final result of a discovery run: a validated master connection
(obtained at endpoint `i`), a propagated error, or one of the two
terminal sentinel errors. -/
inductive SentinelResult where
  | success (i : Nat)
  | err (e : Nat)
  | allUnreachable
  | masterUnknown
  deriving DecidableEq, Repr

/-- The outer `loop`: scan the endpoint list; on success return the
master connection, on abort propagate the error, on restart clear the
flag and run another round, on exhaustion classify the failure by the
`unreachable_sentinel` flag. The environment list is the fuel: `none`
means the modelled run had a restart pending beyond the supplied
rounds. -/
def sentinelLoop : List (List SentinelReply) → Bool →
    List Event × Option SentinelResult
  | [], _ => ([], none)
  | round :: envs, u =>
    let o := roundScan 0 u round
    match o.exit with
    | .success i => (o.trace, some (.success i))
    | .abort e => (o.trace, some (.err e))
    | .exhausted =>
      (o.trace, some (if o.unreachable then .allUnreachable else .masterUnknown))
    | .restart =>
      let r := sentinelLoop envs o.unreachable
      (o.trace ++ r.1, r.2)

/-- A full discovery run starts with `unreachable_sentinel = true`. -/
def sentinelRun (env : List (List SentinelReply)) :
    List Event × Option SentinelResult :=
  sentinelLoop env true

/-- The events of a discovery run. -/
def sentinelTrace (env : List (List SentinelReply)) : List Event :=
  (sentinelRun env).1

/-- The result of a discovery run. -/
def sentinelResult (env : List (List SentinelReply)) :
    Option SentinelResult :=
  (sentinelRun env).2

/-- Endpoint outcomes on which the inner loop just `continue`s to the
next endpoint. -/
def continues : SentinelReply → Bool
  | .connectFail => true
  | .queryErr => true
  | .serviceUnknown => true
  | .candidate _ => false

/-- Whether an event records a sentinel answering the
get-master-addr query (either with a candidate or with "service
unknown"). -/
def isAnswer : Event → Bool
  | .answered _ => true
  | .unknown _ => true
  | _ => false

/-- Whether an event records a "service unknown" answer. -/
def isUnknown : Event → Bool
  | .unknown _ => true
  | _ => false

/-- Trace well-formedness for the role-mismatch wait: every sleep
event is either the last event of the run or immediately followed by
a connection attempt to the FIRST configured endpoint. -/
def sleepOK : List Event → Bool
  | [] => true
  | .sleep :: [] => true
  | .sleep :: e :: t => (e = .contact 0) && sleepOK (e :: t)
  | _ :: t => sleepOK t

/-- The events emitted while scanning a prefix of endpoints that all
`continue`: one contact per endpoint, plus the "service unknown"
answer events. -/
def contTrace (i : Nat) : List SentinelReply → List Event
  | [] => []
  | .serviceUnknown :: rest => .contact i :: .unknown i :: contTrace (i + 1) rest
  | _ :: rest => .contact i :: contTrace (i + 1) rest

/-- The error a failed master-candidate validation propagates: the
connection error or the role-query error, `none` for the two
successful-validation outcomes. -/
def candFail : CandOutcome → Option Nat
  | .connFail e => some e
  | .roleErr e => some e
  | .master => none
  | .notMaster => none

/-- An event list containing no sleep event. -/
def noSleep : List Event → Bool
  | [] => true
  | .sleep :: _ => false
  | _ :: t => noSleep t

/-- Claim C8 as stated, formalized: serialization of `Some(v)` appends
exactly one raw argument for every supported value type. -/
def optionOneArgClaim : Prop :=
  ∀ v : Val, (writeArgs (.opt (some v)) []).length = 1

/-- Claim C4 as stated, formalized: from any builder state in which a
key-count field has already been written (`keys_added = true`), a
further builder call appends exactly its own payload, never an
additional key-count field. -/
def noSecondCountFieldClaim : Prop :=
  ∀ (a : List (List Nat)) (op : EvalOp),
    (evalStep ⟨a, true⟩ op).args = a ++ opPayload op

/-! ## Theorems -/

/-- C1: the claim asserts that `num_args(v)` always equals the number
of raw arguments appended by `write_args(v)`, in particular for types
relying on the trait default — such as `CommandArgs` used as a ToArgs
value. The code violates this: `impl ToArgs for CommandArgs`
(src/resp/to_args.rs lines 365-371) does not override `num_args`, so a
two-element `CommandArgs` reports count 1 while `write_args` appends
both elements. The count is load-bearing (it is the key-count prefix
written by `Eval::keys`, and `CommandArgs` is usable there via its
`SingleArgCollection` impl), so this is a slip in the code, not intent. -/
theorem c1_commandargs_default_num_args_mismatch :
    numArgs (.cmdArgs [[97], [98]]) = 1 ∧
    (writeArgs (.cmdArgs [[97], [98]]) []).length = 2 :=
  ⟨rfl, rfl⟩

/-- C9: for every char scalar value, `write_args` appends exactly one
raw argument, and that argument is always exactly 4 bytes: the UTF-8
encoding of the char followed by the untouched zero bytes of the
stack buffer; in particular the char 'a' (97) yields the argument
`[97, 0, 0, 0]`, not `[97]`. -/
theorem c9_char_arg_is_four_bytes :
    ∀ (c : Nat) (args : List (List Nat)),
      writeArgs (.chr c) args = args ++ [charBuf c] ∧
      (charBuf c).length = 4 ∧
      charBuf c = encodeUtf8 c ++ List.replicate (4 - (encodeUtf8 c).length) 0 ∧
      writeArgs (.chr 97) [] = [[97, 0, 0, 0]] := by
  intro c args
  have hle : (encodeUtf8 c).length ≤ 4 := by
    unfold encodeUtf8
    split
    · simp
    · split
      · simp
      · split <;> simp
  refine ⟨rfl, ?_, ?_, rfl⟩
  · simp only [charBuf, List.length_append, List.length_drop, List.length_replicate]
    omega
  · simp only [charBuf, List.drop_replicate]

/-- C5: `Connection::send` is write-then-read; a failed write
propagates without reading, end of stream on read yields the
ClientError "Disconnected by peer" and never a success value, and a
decoded Error reply yields the typed server-error failure and never a
success value. -/
theorem c5_send_error_translation :
    ∀ (e : RErr) (r : Option (Except RErr Value)) (msg : List Nat) (v : Value),
      send (.ok ()) none = .error (.client disconnectedMsg) ∧
      send (.ok ()) none ≠ .ok v ∧
      send (.ok ()) (some (.ok (.error msg))) = .error (.redis msg) ∧
      send (.ok ()) (some (.ok (.error msg))) ≠ .ok v ∧
      send (.error e) r = .error e := by
  intro e r msg v
  refine ⟨rfl, ?_, rfl, ?_, rfl⟩ <;> intro h <;> exact Except.noConfusion h

/-- C8 counterexample: the claim states that `Some(v)` appends exactly
one raw argument for every supported element type; but `Option<T>` is
itself a supported element type (`impl SingleArg for Option<T>`), and
`Some(None)` appends zero arguments, since `Some` delegates to the
inner value and `None` writes nothing. -/
theorem c8_option_counterexample : ¬ optionOneArgClaim :=
  fun h => absurd (h (.opt none)) (by decide)

/-- C8 amended: `None` appends zero arguments and reports count 0;
`Some(v)` delegates to the inner value, appending exactly the
arguments `v` itself appends and reporting `v`'s count — in
particular exactly one argument when the inner value is of a scalar
single-token type (integer, boolean, string/bytes, char). -/
theorem c8_option_zero_or_one :
    ∀ (v : Val) (args : List (List Nat)),
      writeArgs (.opt none) args = args ∧
      numArgs (.opt none) = 0 ∧
      writeArgs (.opt (some v)) args = writeArgs v args ∧
      numArgs (.opt (some v)) = numArgs v ∧
      (scalar v = true →
        (writeArgs (.opt (some v)) args).length = args.length + 1 ∧
        numArgs (.opt (some v)) = 1) := by
  intro v args
  refine ⟨rfl, rfl, rfl, rfl, fun hs => ⟨?_, ?_⟩⟩ <;>
    cases v <;> simp_all [scalar, writeArgs, writeArgsOpt, numArgs, numArgsOpt]

/-- Witness for C8 amended at a concrete scalar input, discharging the
scalar hypothesis of the final conjunct. -/
theorem c8_option_zero_or_one_witness :
    (writeArgs (.opt (some (.int 7))) [[97]]).length = 2 ∧
    numArgs (.opt (some (.int 7))) = 1 :=
  ⟨((c8_option_zero_or_one (.int 7) [[97]]).2.2.2.2 rfl).1,
   ((c8_option_zero_or_one (.int 7) [[97]]).2.2.2.2 rfl).2⟩

/-- Once `keys_added` is set, a sequence of `args(...)` calls appends
exactly the concatenation of its payloads and keeps the flag set. -/
theorem evalFoldlArgsOnly :
    ∀ (ops : List EvalOp) (a : List (List Nat)), ops.all isArgsOp = true →
      ops.foldl evalStep ⟨a, true⟩ = ⟨a ++ (ops.map opPayload).flatten, true⟩ := by
  intro ops
  induction ops with
  | nil => intro a _; simp
  | cons op rest ih =>
    intro a h
    rw [List.all_cons, Bool.and_eq_true] at h
    cases op with
    | keys ks => simp [isArgsOp] at h
    | args vs =>
      have hstep : evalStep ⟨a, true⟩ (.args vs) = ⟨a ++ vs, true⟩ := rfl
      rw [List.foldl_cons, hstep, ih (a ++ vs) h.2]
      simp [opPayload]

/-- C3 counterexample: the claim includes "a build with no arguments
at all", but `eval(script).execute()` — no `keys` call and no `args`
call — sends a frame consisting of the script alone: no zero
key-count field (`"0"`, the byte list `[48]`) is ever emitted. -/
theorem c3_no_zero_field_on_empty_build :
    (evalRun [115] []).args = [[115]] ∧ [48] ∉ (evalRun [115] []).args := by
  decide

/-- C3 amended: for every build in which `args(...)` is called at
least once and `keys(...)` never, the frame contains exactly one
explicit zero key-count field, positioned immediately after the
script and before the first non-key argument. A build with no
`args(...)` call emits no key-count field at all. -/
theorem c3_zero_keycount_before_args :
    ∀ (script : List Nat) (vs : List (List Nat)) (rest : List EvalOp),
      rest.all isArgsOp = true →
      (evalRun script (.args vs :: rest)).args =
        script :: natDigits 0 :: (vs ++ (rest.map opPayload).flatten) := by
  intro script vs rest h
  have hstep : evalStep (evalInit script) (.args vs) =
      ⟨[script] ++ natDigits 0 :: vs, true⟩ := rfl
  rw [evalRun, List.foldl_cons, hstep,
    evalFoldlArgsOnly rest ([script] ++ natDigits 0 :: vs) h]
  simp

/-- Witness for C3 amended at a concrete two-call build. -/
theorem c3_zero_keycount_before_args_witness :
    (evalRun [115] [.args [[97]], .args [[98]]]).args =
      [[115], [48], [97], [98]] :=
  c3_zero_keycount_before_args [115] [[97]] [.args [[98]]] rfl

/-- C4 counterexample: the claim states that once a key-count field
has been written (`keys_added = true`), no later `keys(...)` or
`args(...)` call inserts another key-count field; but `Eval::keys`
unconditionally appends `keys.num_args()` before its keys, so a
second `keys` call writes a second count field (here `"1"` = `[49]`
in front of the key, instead of appending the key alone). -/
theorem c4_keys_reinsert_count_field : ¬ noSecondCountFieldClaim :=
  fun h => absurd (h [[115]] (.keys [[107]])) (by decide)

/-- C4 amended: once a key-count field has been written
(`keys_added = true`), no later `args(...)` call — nor any sequence
of them — inserts another key-count field: they append exactly their
payloads. A later `keys(...)` call, by contrast, always inserts an
additional count field for its own keys. -/
theorem c4_args_never_reinsert_count :
    ∀ (a : List (List Nat)) (ops : List EvalOp), ops.all isArgsOp = true →
      (ops.foldl evalStep ⟨a, true⟩).args = a ++ (ops.map opPayload).flatten ∧
      ∀ ks, (evalStep ⟨a, true⟩ (.keys ks)).args =
        a ++ natDigits ks.length :: ks := by
  intro a ops h
  exact ⟨by rw [evalFoldlArgsOnly ops a h], fun ks => rfl⟩

/-- Witness for C4 amended at a concrete state and call sequence. -/
theorem c4_args_never_reinsert_count_witness :
    (([EvalOp.args [[97]], EvalOp.args [[98]]]).foldl evalStep
      ⟨[[115], [48]], true⟩).args = [[115], [48], [97], [98]] :=
  (c4_args_never_reinsert_count [[115], [48]] [.args [[97]], .args [[98]]] rfl).1

/-- Scanning a round in which every endpoint fails to connect
contacts each endpoint once and exhausts the list with the
`unreachable` flag untouched. -/
theorem roundScanConnectFail :
    ∀ (n i : Nat) (u : Bool),
      roundScan i u (List.replicate n .connectFail) =
        ⟨(List.range' i n).map Event.contact, u, .exhausted⟩ := by
  intro n
  induction n with
  | zero => intro i u; simp [roundScan]
  | succ n ih =>
    intro i u
    simp [List.replicate_succ, roundScan, ih (i + 1) u, List.range'_succ]

/-- C7: if every connection attempt to every sentinel endpoint fails,
discovery terminates after a single pass over the list — whatever
could have happened in later rounds, none is entered; the trace is
exactly one contact per configured endpoint — and the result is the
"all sentinel endpoints unreachable" error. -/
theorem c7_all_connect_fail_single_pass :
    ∀ (n : Nat) (rounds : List (List SentinelReply)),
      sentinelLoop (List.replicate n .connectFail :: rounds) true =
        ((List.range n).map Event.contact, some .allUnreachable) := by
  intro n rounds
  simp [sentinelLoop, roundScanConnectFail n 0 true, List.range_eq_range']

/-- Scanning a round whose endpoints all `continue` up to a sentinel
that answers with a candidate whose validation fails: the scan
contacts exactly the endpoints up to and including that sentinel and
aborts with the propagated error. -/
theorem roundScanAbort :
    ∀ (pre : List SentinelReply) (i : Nat) (u : Bool) (c : CandOutcome)
      (e : Nat) (rest : List SentinelReply),
      pre.all continues = true → candFail c = some e →
      (roundScan i u (pre ++ .candidate c :: rest)).trace =
        contTrace i pre ++
          [.contact (i + pre.length), .answered (i + pre.length)] ∧
      (roundScan i u (pre ++ .candidate c :: rest)).exit = .abort e := by
  intro pre
  induction pre with
  | nil =>
    intro i u c e rest _ hc
    cases c <;> simp only [candFail, Option.some.injEq, reduceCtorEq] at hc <;>
      subst hc <;> simp [roundScan, contTrace]
  | cons r pre ih =>
    intro i u c e rest hall hc
    rw [List.all_cons, Bool.and_eq_true] at hall
    have hlen : i + (r :: pre).length = (i + 1) + pre.length := by
      simp; omega
    cases r with
    | connectFail =>
      have h := ih (i + 1) u c e rest hall.2 hc
      refine ⟨?_, ?_⟩
      · simp [roundScan, contTrace, h.1, hlen]
        omega
      · simp [roundScan, h.2]
    | queryErr =>
      have h := ih (i + 1) u c e rest hall.2 hc
      refine ⟨?_, ?_⟩
      · simp [roundScan, contTrace, h.1, hlen]
        omega
      · simp [roundScan, h.2]
    | serviceUnknown =>
      have h := ih (i + 1) false c e rest hall.2 hc
      refine ⟨?_, ?_⟩
      · simp [roundScan, contTrace, h.1, hlen]
        omega
      · simp [roundScan, h.2]
    | candidate c2 => simp [continues] at hall

/-- C10: whenever a sentinel answers with a master candidate and the
connection to the candidate (or the role query on it) fails, the
whole discovery run aborts at once with that error: no further
sentinel endpoint is contacted (the trace stops at the answering
sentinel, whatever follows it in the list) and no further round is
started (the result does not depend on the remaining rounds). -/
theorem c10_candidate_failure_aborts :
    ∀ (pre rest : List SentinelReply) (rounds : List (List SentinelReply))
      (c : CandOutcome) (e : Nat) (u : Bool),
      pre.all continues = true → candFail c = some e →
      sentinelLoop ((pre ++ .candidate c :: rest) :: rounds) u =
        (contTrace 0 pre ++ [.contact pre.length, .answered pre.length],
          some (.err e)) := by
  intro pre rest rounds c e u hall hc
  have h := roundScanAbort pre 0 u c e rest hall hc
  rcases hscan : roundScan 0 u (pre ++ .candidate c :: rest) with ⟨t, u2, x⟩
  rw [hscan] at h
  simp only at h
  rw [h.2] at hscan
  simp [sentinelLoop, hscan, h.1]

/-- Witness for C10 at a concrete two-endpoint round. -/
theorem c10_candidate_failure_aborts_witness :
    sentinelLoop [[.connectFail, .candidate (.connFail 5)]] true =
      ([.contact 0, .contact 1, .answered 1], some (.err 5)) :=
  c10_candidate_failure_aborts [.connectFail] [] [] (.connFail 5) 5 true rfl rfl

/-- Prepending sleep-free events does not affect the sleep
well-formedness of what follows. -/
theorem sleepOKAppendNoSleep :
    ∀ (t s : List Event), noSleep t = true →
      sleepOK (t ++ s) = sleepOK s := by
  intro t
  induction t with
  | nil => intro s _; rfl
  | cons e t ih =>
    intro s h
    cases e with
    | sleep => simp [noSleep] at h
    | contact i => simpa [sleepOK] using ih s h
    | answered i => simpa [sleepOK] using ih s h
    | unknown i => simpa [sleepOK] using ih s h

/-- A sleep-free event list is sleep well-formed. -/
theorem sleepOKOfNoSleep : ∀ t, noSleep t = true → sleepOK t = true := by
  intro t h
  have := sleepOKAppendNoSleep t [] h
  simpa using this

/-- Sleep structure of one round's scan: either the scan never slept
(and did not request a restart), or its trace is a sleep-free prefix
followed by a single final sleep and the scan requested a restart. -/
theorem roundScanSleep :
    ∀ (rs : List SentinelReply) (i : Nat) (u : Bool),
      (noSleep (roundScan i u rs).trace = true ∧
        (roundScan i u rs).exit ≠ .restart) ∨
      (∃ t0, (roundScan i u rs).trace = t0 ++ [.sleep] ∧
        noSleep t0 = true ∧ (roundScan i u rs).exit = .restart) := by
  intro rs
  induction rs with
  | nil => intro i u; exact .inl ⟨rfl, by simp [roundScan]⟩
  | cons r rest ih =>
    intro i u
    cases r with
    | connectFail =>
      rcases ih (i + 1) u with ⟨h1, h2⟩ | ⟨t0, h1, h2, h3⟩
      · exact .inl ⟨by simpa [roundScan, noSleep] using h1,
          by simpa [roundScan] using h2⟩
      · exact .inr ⟨.contact i :: t0, by simp [roundScan, h1],
          by simpa [noSleep] using h2, by simpa [roundScan] using h3⟩
    | queryErr =>
      rcases ih (i + 1) u with ⟨h1, h2⟩ | ⟨t0, h1, h2, h3⟩
      · exact .inl ⟨by simpa [roundScan, noSleep] using h1,
          by simpa [roundScan] using h2⟩
      · exact .inr ⟨.contact i :: t0, by simp [roundScan, h1],
          by simpa [noSleep] using h2, by simpa [roundScan] using h3⟩
    | serviceUnknown =>
      rcases ih (i + 1) false with ⟨h1, h2⟩ | ⟨t0, h1, h2, h3⟩
      · exact .inl ⟨by simpa [roundScan, noSleep] using h1,
          by simpa [roundScan] using h2⟩
      · exact .inr ⟨.contact i :: .unknown i :: t0, by simp [roundScan, h1],
          by simpa [noSleep] using h2, by simpa [roundScan] using h3⟩
    | candidate c =>
      cases c with
      | connFail e => exact .inl ⟨rfl, by simp [roundScan]⟩
      | roleErr e => exact .inl ⟨rfl, by simp [roundScan]⟩
      | master => exact .inl ⟨rfl, by simp [roundScan]⟩
      | notMaster =>
        exact .inr ⟨[.contact i, .answered i], rfl, rfl, by simp [roundScan]⟩

/-- The trace of a discovery run is empty or starts with a connection
attempt to the first configured endpoint. -/
theorem sentinelLoopHead :
    ∀ (env : List (List SentinelReply)) (u : Bool),
      (sentinelLoop env u).1 = [] ∨
      ∃ t, (sentinelLoop env u).1 = .contact 0 :: t := by
  intro env u
  cases env with
  | nil => exact .inl rfl
  | cons round envs =>
    cases round with
    | nil => exact .inl rfl
    | cons r rest =>
      right
      have hhd : ∃ x, (roundScan 0 u (r :: rest)).trace = .contact 0 :: x := by
        cases r with
        | connectFail => exact ⟨_, rfl⟩
        | queryErr => exact ⟨_, rfl⟩
        | serviceUnknown => exact ⟨_, rfl⟩
        | candidate c => cases c <;> exact ⟨_, rfl⟩
      obtain ⟨x, hx⟩ := hhd
      rcases hscan : roundScan 0 u (r :: rest) with ⟨t, u2, ex⟩
      rw [hscan] at hx
      simp only at hx
      subst hx
      cases ex with
      | success i => exact ⟨x, by simp [sentinelLoop, hscan]⟩
      | abort e => exact ⟨x, by simp [sentinelLoop, hscan]⟩
      | exhausted => exact ⟨x, by simp [sentinelLoop, hscan]⟩
      | restart =>
        exact ⟨x ++ (sentinelLoop envs u2).1, by simp [sentinelLoop, hscan]⟩

/-- Every sleep in a discovery run's trace is immediately followed by
a connection attempt to the first configured endpoint, or ends the
trace. -/
theorem sentinelLoopSleepOK :
    ∀ (env : List (List SentinelReply)) (u : Bool),
      sleepOK (sentinelLoop env u).1 = true := by
  intro env
  induction env with
  | nil => intro u; rfl
  | cons round envs ih =>
    intro u
    rcases hscan : roundScan 0 u round with ⟨t, u2, x⟩
    have hs := roundScanSleep round 0 u
    rw [hscan] at hs
    simp only at hs
    cases x with
    | success i =>
      rcases hs with ⟨h1, _⟩ | ⟨t0, h1, h2, h3⟩
      · have htr : (sentinelLoop (round :: envs) u).1 = t := by
          simp [sentinelLoop, hscan]
        rw [htr]
        exact sleepOKOfNoSleep t h1
      · exact absurd h3 (by simp)
    | abort e =>
      rcases hs with ⟨h1, _⟩ | ⟨t0, h1, h2, h3⟩
      · have htr : (sentinelLoop (round :: envs) u).1 = t := by
          simp [sentinelLoop, hscan]
        rw [htr]
        exact sleepOKOfNoSleep t h1
      · exact absurd h3 (by simp)
    | exhausted =>
      rcases hs with ⟨h1, _⟩ | ⟨t0, h1, h2, h3⟩
      · have htr : (sentinelLoop (round :: envs) u).1 = t := by
          simp [sentinelLoop, hscan]
        rw [htr]
        exact sleepOKOfNoSleep t h1
      · exact absurd h3 (by simp)
    | restart =>
      rcases hs with ⟨_, hne⟩ | ⟨t0, h1, h2, _⟩
      · exact absurd rfl hne
      · have htr : (sentinelLoop (round :: envs) u).1 =
            t ++ (sentinelLoop envs u2).1 := by
          simp [sentinelLoop, hscan]
        rw [htr, h1, List.append_assoc, sleepOKAppendNoSleep t0 _ h2]
        rcases sentinelLoopHead envs u2 with hnil | ⟨tl, htl⟩
        · rw [hnil]; rfl
        · rw [htl]
          have hok := ih u2
          rw [htl] at hok
          simpa [sleepOK] using hok

/-- C6: in every discovery run, whenever a resolved candidate reports
a role other than Master, the scan of that round stops at once — the
inter-failure wait (the sleep event) is emitted immediately after the
answering sentinel, before any further endpoint contact — and
whatever follows a sleep in the run's trace starts with a connection
attempt to the FIRST endpoint of the configured list: the whole scan
restarts, not just the mismatched endpoint. -/
theorem c6_role_mismatch_waits_then_full_rescan :
    ∀ env : List (List SentinelReply),
      sleepOK (sentinelTrace env) = true ∧
      ∀ (i : Nat) (u : Bool) (rest : List SentinelReply),
        roundScan i u (.candidate .notMaster :: rest) =
          ⟨[.contact i, .answered i, .sleep], u, .restart⟩ :=
  fun env => ⟨sentinelLoopSleepOK env true, fun _ _ _ => rfl⟩

/-- The `unreachable_sentinel` flag after a round's scan: it stays set
exactly when it was set before and no endpoint of the round answered
"service unknown". -/
theorem roundScanUnreachable :
    ∀ (rs : List SentinelReply) (i : Nat) (u : Bool),
      (roundScan i u rs).unreachable =
        (u && !((roundScan i u rs).trace.any isUnknown)) := by
  intro rs
  induction rs with
  | nil => intro i u; simp [roundScan]
  | cons r rest ih =>
    intro i u
    cases r with
    | connectFail => simpa [roundScan, isUnknown] using ih (i + 1) u
    | queryErr => simpa [roundScan, isUnknown] using ih (i + 1) u
    | serviceUnknown => simp [roundScan, isUnknown, ih (i + 1) false]
    | candidate c => cases c <;> simp [roundScan, isUnknown]

/-- Classification invariant of the discovery loop: when the loop
terminates with one of the two sentinel errors, it reports
"master unknown" exactly when the flag was already cleared on entry
or some scanned endpoint answered "service unknown". -/
theorem sentinelLoopClass :
    ∀ (env : List (List SentinelReply)) (u : Bool) (r : SentinelResult),
      (sentinelLoop env u).2 = some r →
      (r = .allUnreachable ∨ r = .masterUnknown) →
      (r = .masterUnknown ↔
        (u = false ∨ (sentinelLoop env u).1.any isUnknown = true)) := by
  intro env
  induction env with
  | nil => intro u r h; exact absurd h (by simp [sentinelLoop])
  | cons round envs ih =>
    intro u r hres hdisj
    rcases hscan : roundScan 0 u round with ⟨t, u2, x⟩
    have hu2 : u2 = (u && !(t.any isUnknown)) := by
      have h := roundScanUnreachable round 0 u
      rw [hscan] at h
      simpa using h
    cases x with
    | success i =>
      have hr : r = .success i := by
        have h : (sentinelLoop (round :: envs) u).2 = some (.success i) := by
          simp [sentinelLoop, hscan]
        rw [h] at hres
        exact (Option.some_inj.mp hres).symm
      subst hr
      rcases hdisj with h | h <;> exact absurd h (by simp)
    | abort e =>
      have hr : r = .err e := by
        have h : (sentinelLoop (round :: envs) u).2 = some (.err e) := by
          simp [sentinelLoop, hscan]
        rw [h] at hres
        exact (Option.some_inj.mp hres).symm
      subst hr
      rcases hdisj with h | h <;> exact absurd h (by simp)
    | exhausted =>
      have hr : r = if u2 then SentinelResult.allUnreachable
          else .masterUnknown := by
        have h : (sentinelLoop (round :: envs) u).2 =
            some (if u2 then SentinelResult.allUnreachable
              else .masterUnknown) := by
          simp [sentinelLoop, hscan]
        rw [h] at hres
        exact (Option.some_inj.mp hres).symm
      have htr : (sentinelLoop (round :: envs) u).1 = t := by
        simp [sentinelLoop, hscan]
      rw [htr]
      subst hr
      rw [hu2]
      cases u <;> cases ht : t.any isUnknown <;> simp [ht]
    | restart =>
      have htr : (sentinelLoop (round :: envs) u).1 =
          t ++ (sentinelLoop envs u2).1 := by
        simp [sentinelLoop, hscan]
      have hres2 : (sentinelLoop envs u2).2 = some r := by
        rw [← hres]
        simp [sentinelLoop, hscan]
      have hIH := ih u2 r hres2 hdisj
      rw [htr, List.any_append, hIH, hu2]
      generalize t.any isUnknown = a at *
      generalize (sentinelLoop envs _).1.any isUnknown = b
      cases u <;> cases a <;> cases b <;> simp

/-- C2 counterexample: the claim says discovery returns the "all
sentinel endpoints unreachable" error if and only if no sentinel ever
answered any query during the run. In this run the (sole) sentinel
answers the master-address query with a candidate, the candidate's
role check fails (restart), and in the second round the sentinel is
unreachable: a sentinel answered a query, yet the code returns the
"unreachable" error — `unreachable_sentinel` is only cleared by the
"service unknown" answer, never by a candidate answer. -/
theorem c2_answered_yet_unreachable :
    sentinelResult [[.candidate .notMaster], [.connectFail]] =
      some .allUnreachable ∧
    (sentinelTrace [[.candidate .notMaster], [.connectFail]]).any isAnswer =
      true :=
  ⟨rfl, rfl⟩

/-- C2 amended: when discovery terminates with one of the two sentinel
errors, it returns "master unknown by all Sentinel instances" exactly
when some sentinel answered "service unknown" during the run, and
"all Sentinel instances are unreachable" exactly when none did — so a
"service unknown" answer is indeed never counted toward
"unreachable", but a sentinel that answered with a (failed) master
candidate does not count as having answered for this classification. -/
theorem c2_error_classification :
    ∀ (env : List (List SentinelReply)) (r : SentinelResult),
      sentinelResult env = some r →
      (r = .allUnreachable ∨ r = .masterUnknown) →
      ((r = .masterUnknown ↔ (sentinelTrace env).any isUnknown = true) ∧
       (r = .allUnreachable ↔ (sentinelTrace env).any isUnknown = false)) := by
  intro env r hres hdisj
  rw [show sentinelTrace env = (sentinelLoop env true).1 from rfl]
  have h := sentinelLoopClass env true r hres hdisj
  simp only [Bool.true_eq_false, false_or] at h
  refine ⟨h, ?_⟩
  constructor
  · intro hA
    subst hA
    cases hany : (sentinelLoop env true).1.any isUnknown
    · rfl
    · exact absurd (h.mpr hany) (by simp)
  · intro hf
    rcases hdisj with h1 | h2
    · exact h1
    · rw [h.mp h2] at hf
      exact absurd hf (by simp)

/-- Witness for C2 amended: a run whose sole sentinel answers
"service unknown" is classified "master unknown", and its trace shows
the answer. -/
theorem c2_error_classification_witness :
    (sentinelTrace [[.serviceUnknown]]).any isUnknown = true :=
  (c2_error_classification [[.serviceUnknown]] .masterUnknown rfl
    (Or.inr rfl)).1.mp rfl

end RedisDriver
